import Mathlib

/-!
# Verification of the self-balancing machine simulation

Shallow embedding of `src/Controller.py` and `src/simulation.py`
(repository `LuckySan/controlling_fun`).

Python floats are modelled as exact rationals (`ℚ`).  `math.sin` is not
rational-valued, so the simulation step is parameterised by the function
`sinFn : ℚ → ℚ` that stands for `math.sin`; likewise the tipping threshold
`MAX_ANGLE_TIPPING_RAD = math.radians(90)` (an approximation of π/2, which
is irrational) is a parameter `maxAngleTippingRad`.  All other module-level
constants of `simulation.py` are exact rationals and are carried verbatim.
-/

namespace ControllingFun

/-! ## Controllers (`src/Controller.py`) -/

/-- `ProportionalController.control_torque` (Controller.py lines 34-47):
`theta_goal = 0.0; theta_error = theta - theta_goal;
tau_corrective = theta_error * self.K_p; return tau_corrective`.
The controller has no internal state, so it is a pure function of the
gain `K_p` and the angle `theta` (the `dt` argument is unused). -/
def proportionalControlTorque (K_p theta : ℚ) : ℚ :=
  let theta_goal : ℚ := 0
  let theta_error := theta - theta_goal
  let tau_corrective := theta_error * K_p
  tau_corrective

/-- Internal state of `PIController`: the accumulated `integral`. -/
structure PIState where
  integral : ℚ
  deriving Repr, DecidableEq

/-- `PIController.__init__` sets `integral = 0.0`. -/
def piInit : PIState := ⟨0⟩

/-- `PIController.control_torque` (Controller.py lines 65-80):
mutates `self.integral += theta_error * dt` and returns
`theta_error * K_p + self.integral * K_i`.  Modelled as explicit state
passing: returns the new state together with the returned torque. -/
def piControlTorque (K_p K_i : ℚ) (s : PIState) (theta dt : ℚ) :
    PIState × ℚ :=
  let theta_goal : ℚ := 0
  let theta_error := theta - theta_goal
  let integral := s.integral + theta_error * dt
  let tau_corrective := theta_error * K_p + integral * K_i
  (⟨integral⟩, tau_corrective)

/-- Internal state of `PIDController`: `integral` and `previous_error`. -/
structure PIDState where
  integral : ℚ
  previous_error : ℚ
  deriving Repr, DecidableEq

/-- `PIDController.__init__` sets `integral = 0.0`, `previous_error = 0.0`. -/
def pidInit : PIDState := ⟨0, 0⟩

/-- `PIDController.control_torque` (Controller.py lines 102-119):
`self.integral += theta_error * dt;
derivative = (theta_error - self.previous_error) / dt if dt > 0 else 0.0;
tau = theta_error*K_p + self.integral*K_i + derivative*K_d;
self.previous_error = theta_error; return tau`. -/
def pidControlTorque (K_p K_i K_d : ℚ) (s : PIDState) (theta dt : ℚ) :
    PIDState × ℚ :=
  let theta_goal : ℚ := 0
  let theta_error := theta - theta_goal
  let integral := s.integral + theta_error * dt
  let derivative := if dt > 0 then (theta_error - s.previous_error) / dt else 0
  let tau_corrective := theta_error * K_p + integral * K_i + derivative * K_d
  (⟨integral, theta_error⟩, tau_corrective)

/-! ## Simulation (`src/simulation.py`) -/

/-- The module-level simulation parameters of `simulation.py`.
`sinFn` stands for `math.sin`; `maxAngleTippingRad` stands for
`math.radians(90)` (both irrational-valued in the source, hence
parameters here).  The numeric defaults of the source are in
`defaultParams` below. -/
structure SimParams where
  mBody : ℚ                -- M_BODY = 1.0
  lBody : ℚ                -- L_BODY = 1.5
  g : ℚ                    -- G = 9.81
  dt : ℚ                   -- DT = 0.01
  moveSpeed : ℚ            -- MOVE_SPEED = 2.0
  horizontalTorqueEffect : ℚ -- HORIZONTAL_TORQUE_EFFECT = 20.0
  maxAngleTippingRad : ℚ   -- MAX_ANGLE_TIPPING_RAD = math.radians(90)
  sinFn : ℚ → ℚ            -- math.sin

/-- `I_BODY = M_BODY * L_BODY**2 / 3` (simulation.py line 9). -/
def SimParams.iBody (p : SimParams) : ℚ := p.mBody * p.lBody ^ 2 / 3

/-- The rational-valued module constants of `simulation.py`, with `sinFn`
and `maxAngleTippingRad` supplied by the caller. -/
def defaultParams (maxAngle : ℚ) (sinFn : ℚ → ℚ) : SimParams :=
  { mBody := 1
    lBody := 3 / 2
    g := 981 / 100
    dt := 1 / 100
    moveSpeed := 2
    horizontalTorqueEffect := 20
    maxAngleTippingRad := maxAngle
    sinFn := sinFn }

/-- The mutable simulation-loop state of `simulation.py`:
`theta`, `theta_dot`, `x_position_meters`, `x_velocity_meters_per_sec`,
`time`, `tipped`. -/
structure SimState where
  theta : ℚ
  theta_dot : ℚ
  x_position : ℚ
  x_velocity : ℚ
  time : ℚ
  tipped : Bool
  deriving Repr, DecidableEq

/-- The state of a fresh `PIController` after calling `control_torque`
`n` times, each time with the same `theta` and `dt`. -/
def piIterate (K_p K_i theta dt : ℚ) : ℕ → PIState
  | 0 => piInit
  | n + 1 => (piControlTorque K_p K_i (piIterate K_p K_i theta dt n) theta dt).1

/-- `tau_corrective = -horizontal_movement_command * HORIZONTAL_TORQUE_EFFECT`
(simulation.py line 107): the reaction torque on the body induced by the
horizontal-movement command. -/
def tauCorrective (p : SimParams) (cmd : ℤ) : ℚ :=
  -(cmd : ℚ) * p.horizontalTorqueEffect

/-- One pass of the `if not tipped:` block of the simulation loop
(simulation.py lines 96-128), given the latched
`horizontal_movement_command` (`cmd`).  Returns the updated state and,
when the tipping transition fires on this pass, the one-time notification
`some (time, theta)` with the values interpolated into the
`print` call (the `time` printed is read before `time += DT` runs; the
angle printed is the post-integration `theta`, the source formatting it in
degrees).  When `tipped` already holds, the whole block is skipped and the
state is returned unchanged with no notification. -/
def stepWithNote (p : SimParams) (cmd : ℤ) (s : SimState) :
    SimState × Option (ℚ × ℚ) :=
  if s.tipped then (s, none)
  else
    -- Set horizontal velocity based on the current command
    let x_velocity := (cmd : ℚ) * p.moveSpeed
    -- 1. Calculate Gravitational Torque
    let tau_gravity := p.mBody * p.g * p.lBody * p.sinFn s.theta
    -- 2. Corrective Torque from Wheel
    let tau_corrective := tauCorrective p cmd
    -- 3. Net Torque
    let tau_net := tau_gravity + tau_corrective
    -- 4. Angular Acceleration
    let theta_double_dot := tau_net / p.iBody
    -- 5. Euler integration: velocity, then angle
    let theta_dot := s.theta_dot + theta_double_dot * p.dt
    let theta := s.theta + theta_dot * p.dt
    -- Horizontal motion
    let x_position := s.x_position + x_velocity * p.dt
    -- 6. Tipping check (with the one-time print on transition)
    let tippedNow := |theta| > p.maxAngleTippingRad
    let note := if tippedNow then some (s.time, theta) else none
    -- time += DT (runs after the check, also on the tipping pass)
    let time := s.time + p.dt
    (⟨theta, theta_dot, x_position, x_velocity, time, tippedNow⟩, note)

/-- One tick of the simulation loop: the state part of `stepWithNote`. -/
def step (p : SimParams) (cmd : ℤ) (s : SimState) : SimState :=
  (stepWithNote p cmd s).1

/-- Running the loop body over a list of latched commands, one per tick. -/
def run (p : SimParams) (cmds : List ℤ) (s : SimState) : SimState :=
  match cmds with
  | [] => s
  | c :: cs => run p cs (step p c s)

/-! ### Concrete fixtures for witnesses and counterexamples -/

/-- A concrete stand-in for `math.sin` in witnesses: the zero function. -/
def zeroSin : ℚ → ℚ := fun _ => 0

/-- Default numeric parameters with tipping threshold `1`. -/
def paramsA : SimParams := defaultParams 1 zeroSin

/-- Default numeric parameters with tipping threshold `1000`
(so short runs never tip). -/
def paramsB : SimParams := defaultParams 1000 zeroSin

/-- The all-zero (upright, at-rest, untipped) initial state. -/
def restState : SimState := ⟨0, 0, 0, 0, 0, false⟩

/-- An untipped state with a large angle (`theta = 100`) and
`time = 5`: under `paramsA` the next tick fires the tipping transition. -/
def leaningState : SimState := ⟨100, 0, 0, 0, 5, false⟩

/-- An already-tipped state with nonzero values in every field. -/
def tippedState : SimState := ⟨2, 3, 4, 7, 5, true⟩

/-! ### Helper lemmas -/

/-- When `tipped` already holds, the loop body is skipped entirely:
one tick returns the state unchanged. -/
theorem step_of_tipped (p : SimParams) (cmd : ℤ) (s : SimState)
    (h : s.tipped = true) : step p cmd s = s := by
  simp [step, stepWithNote, h]

/-- When `tipped` already holds, any number of further ticks returns the
state unchanged. -/
theorem run_of_tipped (p : SimParams) (cmds : List ℤ) (s : SimState)
    (h : s.tipped = true) : run p cmds s = s := by
  induction cmds with
  | nil => rfl
  | cons c cs ih => rw [run, step_of_tipped p c s h, ih]

/-- The `tipped` flag never reverts: if a tick ends untipped, it also
started untipped. -/
theorem not_tipped_of_step_not_tipped (p : SimParams) (cmd : ℤ)
    (s : SimState) (h : (step p cmd s).tipped = false) :
    s.tipped = false := by
  cases hs : s.tipped with
  | false => rfl
  | true =>
    rw [step_of_tipped p cmd s hs] at h
    rw [hs] at h
    exact absurd h (by simp)

/-- On an untipped tick, the horizontal state follows
`x_velocity = command * MOVE_SPEED; x_position += x_velocity * DT`. -/
theorem step_horizontal (p : SimParams) (cmd : ℤ) (s : SimState)
    (h : s.tipped = false) :
    (step p cmd s).x_velocity = (cmd : ℚ) * p.moveSpeed ∧
      (step p cmd s).x_position =
        s.x_position + (cmd : ℚ) * p.moveSpeed * p.dt := by
  simp [step, stepWithNote, h]

/-- Running `N` ticks of command `+1` from an untipped start that stays
untipped advances `x_position` by exactly `N * MOVE_SPEED * DT`. -/
theorem run_ones_x_position (p : SimParams) :
    ∀ (N : ℕ) (s : SimState),
      (run p (List.replicate N 1) s).tipped = false →
        s.tipped = false ∧
          (run p (List.replicate N 1) s).x_position =
            s.x_position + N * p.moveSpeed * p.dt := by
  intro N
  induction N with
  | zero => intro s h; simpa [run] using h
  | succ k ih =>
    intro s h
    rw [List.replicate_succ, run] at h ⊢
    obtain ⟨hstep, hpos⟩ := ih (step p 1 s) h
    have hs : s.tipped = false := not_tipped_of_step_not_tipped p 1 s hstep
    have hx := (step_horizontal p 1 s hs).2
    refine ⟨hs, ?_⟩
    rw [hpos, hx, Nat.cast_succ]
    ring

/-- On an untipped tick, the transition fires exactly when the
post-integration angle strictly exceeds the threshold in absolute
value. -/
theorem step_tipped_iff (p : SimParams) (cmd : ℤ) (s : SimState)
    (h : s.tipped = false) :
    (step p cmd s).tipped = true ↔
      p.maxAngleTippingRad < |(step p cmd s).theta| := by
  simp [step, stepWithNote, h]

/-- On a tick that fires the transition, the notification carries the
pre-advance time and the post-integration angle. -/
theorem stepWithNote_fires (p : SimParams) (cmd : ℤ) (s : SimState)
    (h : s.tipped = false) (htip : (step p cmd s).tipped = true) :
    (stepWithNote p cmd s).2 = some (s.time, (step p cmd s).theta) := by
  have hlt := (step_tipped_iff p cmd s h).mp htip
  simp [step, stepWithNote, h] at hlt ⊢
  simp [hlt]

/-- Running a concatenation of command lists is running them in
sequence. -/
theorem run_append (p : SimParams) (as bs : List ℤ) (s : SimState) :
    run p (as ++ bs) s = run p bs (run p as s) := by
  induction as generalizing s with
  | nil => rfl
  | cons a as ih => rw [List.cons_append, run, run, ih]

end ControllingFun

namespace ControllingFun

/-! ## Claims -/

/-- **C1** (corrected), counterexample: with the default gain
`K_p = 800` and `theta = 1`, `ProportionalController.control_torque`
returns `800`, not `-K_p * theta = -800`: the source computes
`theta_error * K_p = (theta - 0) * K_p`, i.e. `+K_p * theta`. -/
theorem C1_counterexample :
    proportionalControlTorque 800 1 = 800 ∧
      proportionalControlTorque 800 1 ≠ -(800 * 1) := by
  unfold proportionalControlTorque
  norm_num

/-- **C1** (amended): for every angle `theta` and gain `K_p`, the
Proportional controller's `control_torque` returns exactly
`K_p * (theta - 0) = K_p * theta` (the sign is positive, not the spec's
`-K_p * theta`); it is a pure function of `K_p` and `theta`
(deterministic, mutating no internal state, as the embedding as a plain
function shows). -/
theorem C1_proportional_torque (K_p theta : ℚ) :
    proportionalControlTorque K_p theta = K_p * theta ∧
      proportionalControlTorque K_p theta = (theta - 0) * K_p := by
  unfold proportionalControlTorque
  constructor
  · ring
  · ring

/-- **C6** (confirmed): calling a fresh PI controller's `control_torque`
`n` times with the same fixed `theta` and `dt` leaves its integral equal
to `n * theta * dt`, and the `n+1`-st call (i.e. the `n`-th call counting
from one) returns `K_p * theta + K_i * (n+1) * theta * dt` — exactly, in
the rational-arithmetic model. -/
theorem C6_pi_integral_accumulation (K_p K_i theta dt : ℚ) (n : ℕ) :
    (piIterate K_p K_i theta dt n).integral = n * theta * dt ∧
      (piControlTorque K_p K_i (piIterate K_p K_i theta dt n) theta dt).2 =
        K_p * theta + K_i * ((n + 1) * theta * dt) := by
  have key : ∀ m : ℕ, (piIterate K_p K_i theta dt m).integral = m * theta * dt := by
    intro m
    induction m with
    | zero => simp [piIterate, piInit]
    | succ k ih =>
      simp only [piIterate, piControlTorque]
      rw [ih, Nat.cast_succ]
      ring
  refine ⟨key n, ?_⟩
  simp only [piControlTorque]
  rw [key n]
  ring

/-- **C7** (confirmed): for every `theta` and every `dt ≤ 0` (including
`dt = 0`), the PID controller's `control_torque` takes the guarded
branch, so the derivative term is exactly `0` (no division by zero is
attempted), the integral is still accumulated as `theta * dt`, and the
returned torque is `K_p * theta + K_i * (integral + theta * dt)`. -/
theorem C7_pid_nonpositive_dt (K_p K_i K_d : ℚ) (s : PIDState)
    (theta dt : ℚ) (h : dt ≤ 0) :
    pidControlTorque K_p K_i K_d s theta dt =
      (⟨s.integral + theta * dt, theta⟩,
        K_p * theta + K_i * (s.integral + theta * dt)) := by
  simp only [pidControlTorque, if_neg (not_lt.mpr h), Prod.mk.injEq,
    PIDState.mk.injEq]
  refine ⟨⟨by ring, by ring⟩, by ring⟩

/-- Witness for C7: at `K_p = 800`, `K_i = 50`, `K_d = 10`, a fresh
controller, `theta = 1` and `dt = 0`, the hypothesis `dt ≤ 0` holds and
the call returns torque `800` with integral `0` and no derivative
contribution. -/
theorem C7_pid_nonpositive_dt_witness :
    (0 : ℚ) ≤ 0 ∧
      pidControlTorque 800 50 10 pidInit 1 0 = (⟨0, 1⟩, 800) := by
  refine ⟨le_rfl, ?_⟩
  rw [C7_pid_nonpositive_dt 800 50 10 pidInit 1 0 le_rfl]
  norm_num [pidInit]

/-- **C3** (confirmed): every tick taken while Running updates the body
angle exactly as
`theta_dot += (mass*g*length*sin(theta) + tau_corrective) / (mass*length^2/3) * dt`
and then `theta += theta_dot * dt` using the already-updated `theta_dot`
(velocity before angle — semi-implicit Euler ordering). -/
theorem C3_physics_step (p : SimParams) (cmd : ℤ) (s : SimState)
    (h : s.tipped = false) :
    (step p cmd s).theta_dot =
      s.theta_dot +
        (p.mBody * p.g * p.lBody * p.sinFn s.theta + tauCorrective p cmd) /
          (p.mBody * p.lBody ^ 2 / 3) * p.dt ∧
      (step p cmd s).theta = s.theta + (step p cmd s).theta_dot * p.dt := by
  simp [step, stepWithNote, h, SimParams.iBody]

/-- Witness for C3: from the upright rest state (untipped) with
threshold `1`, zero `sinFn` and command `+1`, one tick yields
`theta_dot = -4/15` and `theta = -1/375`, matching the formulas of the
theorem. -/
theorem C3_physics_step_witness :
    restState.tipped = false ∧
      (step paramsA 1 restState).theta_dot = -4 / 15 ∧
      (step paramsA 1 restState).theta = -1 / 375 := by
  have h := C3_physics_step paramsA 1 restState rfl
  refine ⟨rfl, ?_, ?_⟩
  · rw [h.1]
    norm_num [paramsA, defaultParams, restState, zeroSin, tauCorrective]
  · rw [h.2, h.1]
    norm_num [paramsA, defaultParams, restState, zeroSin, tauCorrective]

/-- **C4** (confirmed): the tipped flag is one-way — from any state with
`tipped = true`, any sequence of further ticks leaves `theta`,
`theta_dot`, `x_position` and `elapsed_time` unchanged, and `tipped`
never returns to `false`. -/
theorem C4_tipped_one_way (p : SimParams) (cmds : List ℤ) (s : SimState)
    (h : s.tipped = true) :
    (run p cmds s).theta = s.theta ∧
      (run p cmds s).theta_dot = s.theta_dot ∧
      (run p cmds s).x_position = s.x_position ∧
      (run p cmds s).time = s.time ∧
      (run p cmds s).tipped = true := by
  rw [run_of_tipped p cmds s h]
  exact ⟨rfl, rfl, rfl, rfl, h⟩

/-- Witness for C4: a concrete tipped state is left fully unchanged by
three further ticks with varying commands. -/
theorem C4_tipped_one_way_witness :
    tippedState.tipped = true ∧
      (run paramsA [1, 0, -1] tippedState).theta = 2 ∧
      (run paramsA [1, 0, -1] tippedState).theta_dot = 3 ∧
      (run paramsA [1, 0, -1] tippedState).x_position = 4 ∧
      (run paramsA [1, 0, -1] tippedState).time = 5 ∧
      (run paramsA [1, 0, -1] tippedState).tipped = true := by
  have h := C4_tipped_one_way paramsA [1, 0, -1] tippedState rfl
  exact ⟨rfl, h.1, h.2.1, h.2.2.1, h.2.2.2.1, h.2.2.2.2⟩

/-- **C5** (confirmed for the parameterised threshold): on an untipped
tick, the Running → Tipped transition fires exactly when
`abs(theta) > MAX_ANGLE_TIPPING_RAD` holds of the post-integration
`theta` of that tick; the comparison is strict, so equality with the
threshold does not tip.  (`MAX_ANGLE_TIPPING_RAD = math.radians(90)`,
an approximation of the irrational π/2, is a parameter of the
rational-arithmetic model.) -/
theorem C5_tipping_strict (p : SimParams) (cmd : ℤ) (s : SimState)
    (h : s.tipped = false) :
    ((step p cmd s).tipped = true ↔
        p.maxAngleTippingRad < |(step p cmd s).theta|) ∧
      (|(step p cmd s).theta| = p.maxAngleTippingRad →
        (step p cmd s).tipped = false) := by
  constructor
  · simp [step, stepWithNote, h]
  · intro heq
    cases htip : (step p cmd s).tipped with
    | false => rfl
    | true =>
      have hlt : p.maxAngleTippingRad < |(step p cmd s).theta| := by
        revert htip
        simp [step, stepWithNote, h]
      rw [heq] at hlt
      exact absurd hlt (lt_irrefl _)

/-- Witness for C5: from `leaningState` (`theta = 100`, untipped) with
threshold `1` and zero `sinFn`, the tick's post-integration angle keeps
`|theta| = 100 > 1`, so the transition fires. -/
theorem C5_tipping_strict_witness :
    leaningState.tipped = false ∧ (step paramsA 0 leaningState).tipped = true := by
  have h := (C5_tipping_strict paramsA 0 leaningState rfl).1
  refine ⟨rfl, h.mpr ?_⟩
  norm_num [step, stepWithNote, paramsA, defaultParams, leaningState,
    zeroSin, tauCorrective, SimParams.iBody]

/-- **C2** (corrected), counterexample: from `leaningState`
(`time = 5`, untipped, `theta = 100`), the tick fires the tipping
transition and emits the notification, but the notification reports
`time = 5` — the elapsed time from *before* that tick's `dt` was added —
while the state's time does advance to `5 + dt`; since `dt ≠ 0`, the
reported time does not "already include that tick's dt" as the claim
states. -/
theorem C2_counterexample :
    (stepWithNote paramsA 0 leaningState).2 = some (5, 100) ∧
      (stepWithNote paramsA 0 leaningState).1.time = 5 + paramsA.dt ∧
      (5 : ℚ) ≠ 5 + paramsA.dt := by
  norm_num [stepWithNote, paramsA, defaultParams, leaningState, zeroSin,
    tauCorrective, SimParams.iBody]

/-- **C2** (amended): on the tick in which the tipping transition fires,
`elapsed_time` still advances by `dt`, but the advance happens *after*
the tipping check, so the one-time tip notification reports the
elapsed time from before that tick's `dt` was added (together with the
post-integration angle); on every later tick `elapsed_time` is unchanged
(frozen). -/
theorem C2_time_advance (p : SimParams) (cmd : ℤ) (s : SimState)
    (h : s.tipped = false) (htip : (step p cmd s).tipped = true) :
    (step p cmd s).time = s.time + p.dt ∧
      (stepWithNote p cmd s).2 = some (s.time, (step p cmd s).theta) ∧
      ∀ cmds : List ℤ, (run p cmds (step p cmd s)).time = (step p cmd s).time := by
  refine ⟨?_, ?_, ?_⟩
  · simp [step, stepWithNote, h]
  · exact stepWithNote_fires p cmd s h htip
  · intro cmds
    rw [run_of_tipped p cmds _ htip]

/-- Witness for C2 (amended): from `leaningState` under `paramsA` the
tick tips; the state time advances from `5` to `501/100 = 5 + dt`, the
notification reports the pre-advance time `5`, and a later tick leaves
the time at `501/100`. -/
theorem C2_time_advance_witness :
    leaningState.tipped = false ∧
      (step paramsA 0 leaningState).tipped = true ∧
      (step paramsA 0 leaningState).time = 501 / 100 ∧
      (stepWithNote paramsA 0 leaningState).2 =
        some (5, (step paramsA 0 leaningState).theta) ∧
      (run paramsA [1] (step paramsA 0 leaningState)).time = 501 / 100 := by
  have htip : (step paramsA 0 leaningState).tipped = true := by
    norm_num [step, stepWithNote, paramsA, defaultParams, leaningState,
      zeroSin, tauCorrective, SimParams.iBody]
  have h := C2_time_advance paramsA 0 leaningState rfl htip
  refine ⟨rfl, htip, ?_, ?_, ?_⟩
  · rw [h.1]
    norm_num [paramsA, defaultParams, leaningState]
  · rw [h.2.1]
    norm_num [leaningState]
  · rw [h.2.2 [1], h.1]
    norm_num [paramsA, defaultParams, leaningState]

/-- **C8** (confirmed): every tick taken while Running sets
`x_velocity = command * MOVE_SPEED` and `x_position += x_velocity * DT`,
independently of the angular dynamics; consequently, from
`x_position = 0`, after `N` ticks of command `+1` (none of which tips)
followed by one tick of command `0`, `x_position = N * MOVE_SPEED * DT`
exactly and `x_velocity = 0` on the zero-command tick. -/
theorem C8_horizontal_kinematics :
    (∀ (p : SimParams) (cmd : ℤ) (s : SimState), s.tipped = false →
        (step p cmd s).x_velocity = (cmd : ℚ) * p.moveSpeed ∧
          (step p cmd s).x_position =
            s.x_position + (cmd : ℚ) * p.moveSpeed * p.dt) ∧
      ∀ (p : SimParams) (N : ℕ) (s : SimState), s.x_position = 0 →
        (run p (List.replicate N 1) s).tipped = false →
          (run p (List.replicate N 1 ++ [0]) s).x_position =
              N * p.moveSpeed * p.dt ∧
            (run p (List.replicate N 1 ++ [0]) s).x_velocity = 0 := by
  refine ⟨step_horizontal, ?_⟩
  intro p N s hx h
  obtain ⟨_, hpos⟩ := run_ones_x_position p N s h
  rw [run_append]
  have hz := step_horizontal p 0 (run p (List.replicate N 1) s) h
  constructor
  · show (run p [0] (run p (List.replicate N 1) s)).x_position = _
    rw [run, run, step_horizontal p 0 _ h |>.2, hpos, hx]
    push_cast
    ring
  · show (run p [0] (run p (List.replicate N 1) s)).x_velocity = 0
    rw [run, run, hz.1]
    push_cast
    ring

/-- Witness for C8: under `paramsB` (threshold `1000`, so no tipping)
from the rest state, two `+1` ticks then a `0` tick give
`x_position = 2 * 2 * (1/100) = 1/25` and `x_velocity = 0`. -/
theorem C8_horizontal_kinematics_witness :
    restState.x_position = 0 ∧
      (run paramsB (List.replicate 2 1) restState).tipped = false ∧
      (run paramsB (List.replicate 2 1 ++ [0]) restState).x_position = 1 / 25 ∧
      (run paramsB (List.replicate 2 1 ++ [0]) restState).x_velocity = 0 := by
  have h2 : (run paramsB (List.replicate 2 1) restState).tipped = false := by
    norm_num [run, step, stepWithNote, paramsB, defaultParams, restState,
      zeroSin, tauCorrective, SimParams.iBody, List.replicate, lt_abs]
  have h := C8_horizontal_kinematics.2 paramsB 2 restState rfl h2
  refine ⟨rfl, h2, ?_, h.2⟩
  rw [h.1]
  norm_num [paramsB, defaultParams]

/-- **C9** (confirmed): the corrective torque applied on a Running tick
is the negation of the latched horizontal-movement command scaled by
`HORIZONTAL_TORQUE_EFFECT`: `tau_corrective = -command * 20.0` with the
source's constant, so command `+1` yields torque `-20` and command `-1`
yields `+20`; the step feeds exactly this value into the net torque. -/
theorem C9_corrective_torque (p : SimParams) (cmd : ℤ) (s : SimState)
    (maxAngle : ℚ) (f : ℚ → ℚ) (h : s.tipped = false) :
    tauCorrective p cmd = -(cmd : ℚ) * p.horizontalTorqueEffect ∧
      (step p cmd s).theta_dot =
        s.theta_dot +
          (p.mBody * p.g * p.lBody * p.sinFn s.theta + tauCorrective p cmd) /
            p.iBody * p.dt ∧
      (defaultParams maxAngle f).horizontalTorqueEffect = 20 ∧
      tauCorrective (defaultParams maxAngle f) 1 = -20 ∧
      tauCorrective (defaultParams maxAngle f) (-1) = 20 := by
  refine ⟨rfl, ?_, rfl, ?_, ?_⟩
  · simp [step, stepWithNote, h]
  · norm_num [tauCorrective, defaultParams]
  · norm_num [tauCorrective, defaultParams]

/-- Witness for C9: with command `+1` from the rest state under
`paramsA`, the corrective torque is `-20` and the tick's `theta_dot`
matches the formula (`-4/15`). -/
theorem C9_corrective_torque_witness :
    restState.tipped = false ∧
      tauCorrective paramsA 1 = -20 ∧
      (step paramsA 1 restState).theta_dot = -4 / 15 := by
  have h := C9_corrective_torque paramsA 1 restState 1 zeroSin rfl
  refine ⟨rfl, h.2.2.2.1, ?_⟩
  rw [h.2.1]
  norm_num [paramsA, defaultParams, restState, zeroSin, tauCorrective,
    SimParams.iBody]

/-- **C10** (confirmed): `x_velocity` is also frozen by tipping — from
any tipped state, any sequence of further ticks (whatever the latched
command does) leaves `x_velocity` at the value it had when the machine
tipped; in particular it is not reset to zero. -/
theorem C10_x_velocity_frozen (p : SimParams) (cmds : List ℤ)
    (s : SimState) (h : s.tipped = true) :
    (run p cmds s).x_velocity = s.x_velocity := by
  rw [run_of_tipped p cmds s h]

/-- Witness for C10: the tipped state with `x_velocity = 7` keeps
`x_velocity = 7 ≠ 0` across three further ticks with changing
commands. -/
theorem C10_x_velocity_frozen_witness :
    tippedState.tipped = true ∧
      (run paramsA [1, -1, 0] tippedState).x_velocity = 7 ∧
      (7 : ℚ) ≠ 0 := by
  have h := C10_x_velocity_frozen paramsA [1, -1, 0] tippedState rfl
  exact ⟨rfl, h, by norm_num⟩

end ControllingFun
